import Mathlib

/-!
Verification of the stock-auto-trading repository's real-time scanning and
signal-generation pipeline, as described in its specification.

The Python sources are shallowly embedded over `ℚ` (floats become exact
rationals, the usual convention).  Components covered:

* `soar-trading/backend/analyzer/scoring.py` (`ScoreEngine`),
  `technical.py` (`TechnicalAnalyzer`), `news_analyzer.py` (`NewsAnalyzer`);
* `scanner/server/market_session.py` (`get_market_session`);
* `scanner/server/data_cache.py` (`HistoricalDataCache`);
* `scanner/server/signal_engine.py` (`SignalEngine`) together with
  `scanner/utils/metrics.py` and `scanner/server/feature_multi_tf.py`;
* `scanner/server/server.py` (`monitor_loop`).
-/

/-! ## Python banker's rounding

`round(x, 2)` in Python rounds to the nearest multiple of `1/100`,
breaking ties towards the even integer of hundredths. -/

/-- Round to the nearest integer, ties to even (Python's `round`). -/
def pyRoundInt (q : ℚ) : ℤ :=
  if q - ⌊q⌋ < 1/2 then ⌊q⌋
  else if 1/2 < q - ⌊q⌋ then ⌊q⌋ + 1
  else if Even ⌊q⌋ then ⌊q⌋ else ⌊q⌋ + 1

/-- Python's `round(q, 2)`. -/
def round2 (q : ℚ) : ℚ := (pyRoundInt (q * 100) : ℚ) / 100

theorem pyRoundInt_intCast (k : ℤ) : pyRoundInt (k : ℚ) = k := by
  unfold pyRoundInt
  rw [Int.floor_intCast]
  norm_num

theorem pyRoundInt_nonneg {q : ℚ} (h : 0 ≤ q) : 0 ≤ pyRoundInt q := by
  unfold pyRoundInt
  have h0 : (0 : ℤ) ≤ ⌊q⌋ := by positivity
  split_ifs <;> omega

theorem pyRoundInt_le_intCast {q : ℚ} {k : ℤ} (h : q ≤ (k : ℚ)) :
    pyRoundInt q ≤ k := by
  have hfl : ⌊q⌋ ≤ k := by
    calc ⌊q⌋ ≤ ⌊(k : ℚ)⌋ := Int.floor_le_floor h
    _ = k := Int.floor_intCast k
  unfold pyRoundInt
  split_ifs with h1 h2 h3
  · exact hfl
  all_goals {
    have hlt : ⌊q⌋ < k := by
      rcases lt_or_eq_of_le hfl with hk | hk
      · exact hk
      · exfalso
        apply h1
        have : q - ⌊q⌋ ≤ 0 := by
          rw [hk]; exact sub_nonpos.mpr h
        linarith
    omega }

theorem pyRoundInt_add_even (q : ℚ) (k : ℤ) (hk : Even k) :
    pyRoundInt (q + (k : ℚ)) = pyRoundInt q + k := by
  unfold pyRoundInt
  rw [Int.floor_add_int]
  have hfr : q + (k : ℚ) - ((⌊q⌋ + k : ℤ) : ℚ) = q - ⌊q⌋ := by
    push_cast; ring
  rw [hfr]
  have hev : Even (⌊q⌋ + k) ↔ Even ⌊q⌋ := by
    rw [Int.even_add]; tauto
  split_ifs with h1 h2 h3 h4 h5 <;> try omega
  · exact absurd (hev.mp h3) h4
  · exact absurd (hev.mpr h5) h3

theorem round2_intCast (k : ℤ) : round2 (k : ℚ) = k := by
  unfold round2
  have : (k : ℚ) * 100 = ((k * 100 : ℤ) : ℚ) := by push_cast; ring
  rw [this, pyRoundInt_intCast]
  push_cast
  field_simp

theorem round2_int_add (k : ℤ) (q : ℚ) :
    round2 ((k : ℚ) + q) = (k : ℚ) + round2 q := by
  unfold round2
  have h1 : ((k : ℚ) + q) * 100 = q * 100 + ((k * 100 : ℤ) : ℚ) := by
    push_cast; ring
  rw [h1, pyRoundInt_add_even _ _ ⟨k * 50, by ring⟩]
  push_cast
  field_simp
  ring

theorem round2_round2 (q : ℚ) : round2 (round2 q) = round2 q := by
  unfold round2
  have h1 : (pyRoundInt (q * 100) : ℚ) / 100 * 100 = (pyRoundInt (q * 100) : ℚ) := by
    field_simp
  rw [h1, pyRoundInt_intCast]

theorem round2_nonneg {q : ℚ} (h : 0 ≤ q) : 0 ≤ round2 q := by
  unfold round2
  have := pyRoundInt_nonneg (q := q * 100) (by positivity)
  positivity

theorem round2_le_intCast {q : ℚ} {k : ℤ} (h : q ≤ (k : ℚ)) : round2 q ≤ (k : ℚ) := by
  unfold round2
  have h100 : q * 100 ≤ ((k * 100 : ℤ) : ℚ) := by push_cast; linarith
  have := pyRoundInt_le_intCast h100
  rw [div_le_iff₀ (by norm_num)]
  calc (pyRoundInt (q * 100) : ℚ) ≤ ((k * 100 : ℤ) : ℚ) := by exact_mod_cast this
  _ = (k : ℚ) * 100 := by push_cast; ring

/-! ## Composite Scorer (`soar-trading/backend`)

`TechnicalAnalyzer`'s four sub-analyses each end in a pure step function of
the measured quantity; the network fetches that produce those quantities are
abstracted as the numeric inputs (`deviation_percent`, the three volume
ratios, the two momenta, `spread_percent`). -/

/-- `TechnicalAnalyzer._calculate_vwap_score` (technical.py). -/
def calculate_vwap_score (deviation_percent : ℚ) : ℚ :=
  if deviation_percent > 5 then 15
  else if deviation_percent > 3 then 10
  else if deviation_percent > 1 then 5
  else 0

/-- `TechnicalAnalyzer._calculate_volume_score` (technical.py). -/
def calculate_volume_score (ratio_1m ratio_5m ratio_daily : ℚ) : ℚ :=
  let score_1m : ℚ :=
    if ratio_1m > 10 then 10 else if ratio_1m > 5 then 7
    else if ratio_1m > 3 then 4 else 0
  let score_5m : ℚ :=
    if ratio_5m > 8 then 10 else if ratio_5m > 4 then 7
    else if ratio_5m > 2 then 4 else 0
  let score_daily : ℚ :=
    if ratio_daily > 2 then 5 else if ratio_daily > 3/2 then 3 else 0
  score_1m + score_5m + score_daily

/-- `TechnicalAnalyzer._calculate_momentum_score` (technical.py). -/
def calculate_momentum_score (momentum_5m momentum_15m : ℚ) : ℚ :=
  let score_5m : ℚ :=
    if momentum_5m > 10 then 10 else if momentum_5m > 5 then 7
    else if momentum_5m > 3 then 4 else 0
  let score_15m : ℚ :=
    if momentum_15m > 15 then 5 else if momentum_15m > 10 then 3 else 0
  score_5m + score_15m

/-- `TechnicalAnalyzer._calculate_spread_score` (technical.py). -/
def calculate_spread_score (spread_percent : ℚ) : ℚ :=
  if spread_percent < 1/10 then 5
  else if spread_percent < 3/10 then 3
  else if spread_percent < 1/2 then 1
  else 0

/-- News grade strings; `other` stands for any string outside the
`grade_weights` table of `NewsAnalyzer._get_grade_weight`. -/
inductive Grade | A | B | C | D | F | other
deriving DecidableEq

/-- `NewsAnalyzer._get_grade_weight` (news_analyzer.py): table lookup with
default 1.0. -/
def get_grade_weight : Grade → ℚ
  | Grade.A => 3/2
  | Grade.B => 6/5
  | Grade.C => 1
  | Grade.D => 7/10
  | Grade.F => 1/2
  | Grade.other => 1

/-- One row returned by `db_client.get_recent_news`, together with its time
weight.  `n_time_weight` stands for the value of
`NewsAnalyzer._calculate_time_weight` on the row's timestamp (an exponential
`exp(-hours_ago * ln 2 / 12)`, kept abstract as a positive rational since it
is transcendental). -/
structure NewsItem where
  n_bullish : ℚ
  n_bearish : ℚ
  n_confidence : ℚ
  n_sent_score : ℚ
  n_grade : Grade
  n_time_weight : ℚ
deriving DecidableEq

/-- The per-item score inside `NewsAnalyzer.calculate_news_score`:
`bullish*0.4 + (100-bearish)*0.3 + confidence*100*0.2 + (sent+1)*50*0.1`. -/
def news_item_score (it : NewsItem) : ℚ :=
  it.n_bullish * (4/10) + (100 - it.n_bearish) * (3/10) +
    it.n_confidence * 100 * (2/10) + (it.n_sent_score + 1) * 50 * (1/10)

/-- Combined weight `time_weight * grade_weight` of one news item. -/
def news_item_weight (it : NewsItem) : ℚ :=
  it.n_time_weight * get_grade_weight it.n_grade

/-- `NewsAnalyzer.calculate_news_score` (news_analyzer.py): the `"score"`
field of the returned dict (25-point scale, rounded to two decimals).
An empty news list returns the zero dict. -/
def calculate_news_score (news_list : List NewsItem) : ℚ :=
  if news_list = [] then 0
  else
    let total_score := (news_list.map fun it =>
      news_item_score it * news_item_weight it).sum
    let total_weight := (news_list.map news_item_weight).sum
    let final_score := if total_weight > 0 then total_score / total_weight else 0
    round2 (final_score * (1/4))

/-- `ScoreEngine._calculate_fundamental_score` (scoring.py).
`float_shares` is the value returned by `fmp.get_float_shares`; Python's
`if float_shares:` treats both `None` and `0` as falsy. -/
def calculate_fundamental_score (float_shares : Option ℕ) : ℚ :=
  let float_score : ℚ :=
    match float_shares with
    | none => 0
    | some n =>
      if n = 0 then 0
      else if n < 10000000 then 10
      else if n < 50000000 then 7
      else if n < 100000000 then 4
      else 0
  let short_score : ℚ := 0
  float_score + short_score

/-- The score fields of the dict returned by `ScoreEngine.calculate_score`:
`total_score` and the `"scores"` sub-dict, each passed through
`round(_, 2)`. -/
structure ScoreResult where
  total_score : ℚ
  technical : ℚ
  news : ℚ
  fundamental : ℚ
deriving DecidableEq

/-- `ScoreEngine.calculate_score` (scoring.py, numeric core).  The four
technical analyses and the news/fundamental fetches are abstracted as their
numeric results; the composition `technical_score = vwap + volume + momentum
+ spread`, `total_score = technical_score + news_score + fundamental_score`
and the final rounding mirror the source line by line. -/
def calculate_score (deviation_percent ratio_1m ratio_5m ratio_daily
    momentum_5m momentum_15m spread_percent : ℚ)
    (news_list : List NewsItem) (float_shares : Option ℕ) : ScoreResult :=
  let technical_score :=
    calculate_vwap_score deviation_percent +
    calculate_volume_score ratio_1m ratio_5m ratio_daily +
    calculate_momentum_score momentum_5m momentum_15m +
    calculate_spread_score spread_percent
  let news_score := calculate_news_score news_list
  let fundamental_score := calculate_fundamental_score float_shares
  let total_score := technical_score + news_score + fundamental_score
  ⟨round2 total_score, round2 technical_score, round2 news_score,
    round2 fundamental_score⟩

/-- The four disqualifying conditions of `ScoreEngine._check_tradability`;
the source appends one formatted message string per failing condition, which
we model by its tag. -/
inductive TradabilityReason
  | low_score
  | low_daily_volume
  | low_dollar_volume
  | market_not_open
deriving DecidableEq

/-- `ScoreEngine._check_tradability` (scoring.py).  `min_score`,
`min_daily_volume` and `min_dollar_volume` come from `config.trading`;
`price` is the `'price'` field of `fmp.get_quote(symbol)` and `market_open`
the value of `fmp.is_market_open()`.  Reasons are appended in source order
and `is_tradable = (len(reasons) == 0)`. -/
def check_tradability (min_score min_daily_volume min_dollar_volume : ℚ)
    (score volume_daily price : ℚ) (market_open : Bool) :
    Bool × List TradabilityReason :=
  let reasons : List TradabilityReason :=
    (if score < min_score then [TradabilityReason.low_score] else []) ++
    (if volume_daily < min_daily_volume then [TradabilityReason.low_daily_volume] else []) ++
    (if price * volume_daily < min_dollar_volume then [TradabilityReason.low_dollar_volume] else []) ++
    (if market_open then [] else [TradabilityReason.market_not_open])
  (reasons.isEmpty, reasons)

/-- The dict returned by `TechnicalAnalyzer.calculate_spread`
(bid, ask, spread, spread_percent, score).  The source rounds `spread` and
`spread_percent` to three decimals for display; the rounding is omitted here
(it does not change any value this development states facts about, since
those values are exact). -/
structure SpreadInfo where
  bid_price : ℚ
  ask_price : ℚ
  spread : ℚ
  spread_percent : ℚ
  score : ℚ
deriving DecidableEq

/-- A quote dict as far as `calculate_spread` reads it: the `bidPrice` /
`askPrice` fields (present only on aftermarket quotes; `.get(_, 0)`
defaults are folded into the fields). -/
structure SpreadQuote where
  bidPrice : ℚ
  askPrice : ℚ
deriving DecidableEq

/-- `TechnicalAnalyzer.calculate_spread` (technical.py).  When
`use_aftermarket` is false the source hard-codes `bid_price = 0` and
`ask_price = 0` ("정규장에는 스프레드 계산 제한적"); `spread` is
`ask - bid` only when both are truthy (non-zero). -/
def calculate_spread (use_aftermarket : Bool) (quote : Option SpreadQuote) :
    SpreadInfo :=
  match quote with
  | none => ⟨0, 0, 0, 0, 0⟩
  | some q =>
    let bid_price := if use_aftermarket then q.bidPrice else 0
    let ask_price := if use_aftermarket then q.askPrice else 0
    let spread := if ask_price ≠ 0 ∧ bid_price ≠ 0 then ask_price - bid_price else 0
    let spread_percent := if ask_price > 0 then spread / ask_price * 100 else 0
    ⟨bid_price, ask_price, spread, spread_percent,
      calculate_spread_score spread_percent⟩

/-! ## Session Clock (`scanner/server/market_session.py`)

`get_market_session` converts UTC to US-Eastern local time (with the DST
rule of `get_us_eastern_offset`) and then branches only on the local
weekday and time-of-day; the embedding takes those two local components
directly.  Time-of-day is in seconds (`datetime.time` comparisons are
exact to the microsecond; every boundary in the source is a whole
minute). -/

inductive Session | PRE | RTH | AFTER | CLOSED
deriving DecidableEq

/-- `get_market_session` (market_session.py) as a function of the
US-Eastern local weekday (`Monday = 0` … `Sunday = 6`, as in Python's
`datetime.weekday()`) and local second-of-day. -/
def get_market_session (weekday : ℕ) (sec_of_day : ℕ) : Session :=
  if weekday ≥ 5 then Session.CLOSED
  else if 9 * 3600 + 30 * 60 ≤ sec_of_day ∧ sec_of_day < 16 * 3600 then Session.RTH
  else if 4 * 3600 ≤ sec_of_day ∧ sec_of_day < 9 * 3600 + 30 * 60 then Session.PRE
  else if 16 * 3600 ≤ sec_of_day ∧ sec_of_day < 20 * 3600 then Session.AFTER
  else Session.CLOSED

/-! ## Quote/History Cache (`scanner/server/data_cache.py`) -/

/-- The state of a `HistoricalDataCache`: its `cache` dict, mapping each
symbol to `{"data": payload, "timestamp": fetched_at}` when present.
`time.time()` is passed in explicitly as `now`. -/
def CacheMap (α : Type) : Type := String → Option (α × ℚ)

/-- `HistoricalDataCache.set` (data_cache.py): unconditional overwrite with
a fresh timestamp. -/
def cache_set {α : Type} (c : CacheMap α) (symbol : String) (data : α)
    (now : ℚ) : CacheMap α :=
  fun s => if s = symbol then some (data, now) else c s

/-- `HistoricalDataCache.get` (data_cache.py): returns the payload and the
resulting cache state.  A present entry with `now - timestamp > cache_ttl`
is deleted (`del self.cache[symbol]`) and `None` is returned. -/
def cache_get {α : Type} (cache_ttl : ℚ) (c : CacheMap α) (symbol : String)
    (now : ℚ) : Option α × CacheMap α :=
  match c symbol with
  | none => (none, c)
  | some (data, timestamp) =>
    if now - timestamp > cache_ttl then
      (none, fun s => if s = symbol then none else c s)
    else
      (some data, c)

/-! ## Feature Engine (`scanner/utils/metrics.py`,
`scanner/server/signal_engine.py`, `scanner/server/feature_multi_tf.py`) -/

/-- One OHLCV bar as the feature code reads it (the `open` column is never
read by these functions and is omitted). -/
structure Bar where
  high : ℚ
  low : ℚ
  close : ℚ
  volume : ℚ
deriving DecidableEq, Inhabited

/-- `pandas` max over a column (only applied to non-empty frames; the empty
case is given a junk value). -/
def list_max : List ℚ → ℚ
  | [] => 0
  | [x] => x
  | x :: y :: r => max x (list_max (y :: r))

/-- `pandas` min over a column (only applied to non-empty frames). -/
def list_min : List ℚ → ℚ
  | [] => 0
  | [x] => x
  | x :: y :: r => min x (list_min (y :: r))

/-- `df.tail(k)`: the last `k` elements (all of them when `k ≥ length`). -/
def last_n {α : Type} (xs : List α) (k : ℕ) : List α :=
  xs.drop (xs.length - k)

/-- `series.rolling(window, min_periods).mean()` evaluated at the last
index: the mean of the last `min window length` values, `None` (NaN) when
fewer than `min_periods` values are available. -/
def rolling_mean_last (xs : List ℚ) (window min_periods : ℕ) : Option ℚ :=
  let cnt := min window xs.length
  if xs.length = 0 ∨ cnt < min_periods then none
  else some ((last_n xs cnt).sum / (cnt : ℚ))

/-- `simple_rvol` (utils/metrics.py) evaluated at the last index:
`curr.rolling(curr_window).sum / (base.rolling(base_window,
min_periods=base_window//4).mean + 1e-9)`, with NaN filled by `1.0`. -/
def simple_rvol_last (vol : List ℚ) (base_window curr_window : ℕ) : ℚ :=
  if vol.length < curr_window then 1
  else
    match rolling_mean_last vol base_window (base_window / 4) with
    | none => 1
    | some base => (last_n vol curr_window).sum / (base + 1/1000000000)

/-- `intraday_spread_est` (utils/metrics.py): `(max high - min low) /
last close` over the last three bars, floored at zero; zero on an empty
frame or a zero last close. -/
def intraday_spread_est (bars : List Bar) : ℚ :=
  if bars.length = 0 then 0
  else
    let sub := last_n bars 3
    let hi := list_max (sub.map Bar.high)
    let lo := list_min (sub.map Bar.low)
    let c := (sub.map Bar.close).getLast?.getD 0
    if c = 0 then 0 else max 0 ((hi - lo) / c)

/-- The `base_bars` ("30-minute window") constant chosen per timeframe in
both `SignalEngine.calculate_features` and `analyze_timeframe`. -/
def base_bars_of (timeframe : String) : ℕ :=
  if timeframe = "1min" then 30 else if timeframe = "5min" then 6 else 2

/-- The `base_window` rvol lookback chosen per timeframe in both
`SignalEngine.calculate_features` and `analyze_timeframe`. -/
def base_window_of (timeframe : String) (n : ℕ) : ℕ :=
  if timeframe = "1min" then min 60 (n / 2)
  else if timeframe = "5min" then min 78 (n / 2)
  else min 130 (n / 2)

/-- The feature dict built by `SignalEngine.calculate_features`. -/
structure Feats where
  rvol : ℚ
  base_range : ℚ
  spread_est : ℚ
  move_prev : ℚ
  realtime_move : ℚ
  price : ℚ
  valid : Bool
deriving DecidableEq

/-- `SignalEngine.calculate_features` (signal_engine.py).  The bar frame is
already sorted ascending by timestamp, as the callers guarantee.  Note the
base-range window: `i = len(df)-1; lo_idx = max(0, i - base_bars);
sub = df.iloc[lo_idx:i+1]`, i.e. the last `base_bars + 1` bars. -/
def calculate_features (df : List Bar) (timeframe : String)
    (current_price : Option ℚ) : Option Feats :=
  if df.length < 20 then none
  else
    let n := df.length
    let base_window := base_window_of timeframe n
    let base_bars := base_bars_of timeframe
    let rvol := simple_rvol_last (df.map Bar.volume) base_window 1
    let sub := df.drop (n - 1 - base_bars)
    let hi := list_max (sub.map Bar.high)
    let lo := list_min (sub.map Bar.low)
    let mid := if hi + lo ≠ 0 then (hi + lo) / 2 else 1
    let base_range := if mid ≠ 0 then (hi - lo) / mid else 0
    let spread_est := intraday_spread_est sub
    let last_close := (df.map Bar.close).getLast?.getD 0
    let move_prev :=
      if 2 ≤ n then
        let prev_close := ((df.map Bar.close).drop (n - 2)).headD 0
        if prev_close > 0 then (last_close - prev_close) / prev_close else 0
      else 0
    let realtime_move :=
      match current_price with
      | some cp => if last_close > 0 then (cp - last_close) / last_close else 0
      | none => 0
    some ⟨rvol, base_range, spread_est, move_prev, realtime_move, last_close, true⟩

/-- The feature dict built by `analyze_timeframe` (feature_multi_tf.py);
the short-frame dict omits `realtime_move` and `price`, modelled as `0`. -/
structure FeatsMTF where
  rvol : ℚ
  base_range : ℚ
  spread : ℚ
  move_pct : ℚ
  realtime_move : ℚ
  price : ℚ
  valid : Bool
deriving DecidableEq

/-- `analyze_timeframe` (feature_multi_tf.py).  Identical feature maths to
`SignalEngine.calculate_features` except: the minimum bar count is 10 (with
an explicit invalid dict), and the base-range window is `df.tail(base_bars)`
— exactly `base_bars` bars. -/
def analyze_timeframe (df : List Bar) (timeframe : String)
    (current_price : Option ℚ) : FeatsMTF :=
  if df.length < 10 then ⟨1, 0, 0, 0, 0, 0, false⟩
  else
    let n := df.length
    let base_window := base_window_of timeframe n
    let base_bars := base_bars_of timeframe
    let rvol := simple_rvol_last (df.map Bar.volume) base_window 1
    let sub := last_n df base_bars
    let hi := list_max (sub.map Bar.high)
    let lo := list_min (sub.map Bar.low)
    let mid := if hi + lo ≠ 0 then (hi + lo) / 2 else 1
    let base_range := if mid ≠ 0 then (hi - lo) / mid else 0
    let spread := intraday_spread_est sub
    let last_close := (df.map Bar.close).getLast?.getD 0
    let move_pct :=
      if 2 ≤ n then
        let prev_close := ((df.map Bar.close).drop (n - 2)).headD 0
        if prev_close > 0 then (last_close - prev_close) / prev_close else 0
      else 0
    let realtime_move :=
      match current_price with
      | some cp => if last_close > 0 then (cp - last_close) / last_close else 0
      | none => 0
    ⟨rvol, base_range, spread, move_pct, realtime_move, last_close, true⟩

/-- The base range exactly as the specification words it: `(high - low) /
midpoint` over the most recent `n_bars` bars, defined as zero when the
midpoint is zero.  This definition follows the spec's words (for comparison
with the code's computation), not the source. -/
def base_range_spec (df : List Bar) (n_bars : ℕ) : ℚ :=
  let sub := last_n df n_bars
  let hi := list_max (sub.map Bar.high)
  let lo := list_min (sub.map Bar.low)
  let mid := (hi + lo) / 2
  if mid = 0 then 0 else (hi - lo) / mid

/-! ## Signal Engine classifier gate (`scanner/server/signal_engine.py`)

The XGBoost classifier is opaque: a function from the four-feature row
`[rvol, base_range, spread_est, move_prev]` (the exact `X` built in the
source) to the positive-class probability.  The returned `Bool` flag in the
analysis cores records whether `self.model.predict_proba` was invoked. -/

/-- One entry of `result["signals"]`. -/
structure SigData where
  features : Feats
  ml_score : ℚ
  threshold : ℚ
  signal : Bool
deriving DecidableEq

/-- The per-timeframe body of `SignalEngine.analyze_symbol_rth`
(signal_engine.py lines 156-187) for one already-fetched, already-sorted
bar frame: features → pre-filter → classifier → threshold compare.
Returns the `signals` entry (if any) and whether the classifier ran. -/
def analyze_timeframe_rth (model : ℚ × ℚ × ℚ × ℚ → ℚ) (threshold : ℚ)
    (df : List Bar) (timeframe : String) (current_price : ℚ) :
    Option SigData × Bool :=
  match calculate_features df timeframe (some current_price) with
  | none => (none, false)
  | some feats =>
    if ¬ feats.valid then (none, false)
    else if feats.rvol < 3/2 ∨ feats.base_range > 8/100 then (none, false)
    else
      let prob := model (feats.rvol, feats.base_range, feats.spread_est, feats.move_prev)
      let signal := prob ≥ threshold
      (some ⟨feats, prob, threshold, signal⟩, true)

/-- The body of `SignalEngine.analyze_symbol_pre_after` (signal_engine.py
lines 218-278) for an already-fetched 15-minute frame `data`:
price guard, 20-bar guard, features, the two sequential pre-filters,
classifier, threshold compare. -/
def analyze_pre_after (model : ℚ × ℚ × ℚ × ℚ → ℚ) (threshold : ℚ)
    (data : List Bar) (current_price : ℚ) : Option SigData × Bool :=
  if current_price ≤ 0 then (none, false)
  else if data.length < 20 then (none, false)
  else
    match calculate_features data ("15min") (some current_price) with
    | none => (none, false)
    | some feats =>
      if ¬ feats.valid then (none, false)
      else if feats.rvol < 3/2 then (none, false)
      else if feats.base_range > 8/100 then (none, false)
      else
        let prob := model (feats.rvol, feats.base_range, feats.spread_est, feats.move_prev)
        let signal := prob ≥ threshold
        (some ⟨feats, prob, threshold, signal⟩, true)

/-! ## Monitor/Scanner Orchestrator (`scanner/server/server.py`,
`monitor_loop`) -/

/-- What `SIGNAL_ENGINE.analyze_symbol_rth` / `analyze_symbol_pre_after`
hand back to the loop: the current price (`None`-or-`0` is falsy) and the
`signals` dict in iteration order. -/
structure AnalysisResult where
  current_price : Option ℚ
  signals : List (String × SigData)

/-- One broadcast `MLSignal` payload, identified by symbol and timeframe. -/
structure BroadcastEvent where
  symbol : String
  timeframe : String
deriving DecidableEq

/-- `COOLDOWN_MINUTES` (server.py line 241). -/
def COOLDOWN_MINUTES : ℚ := 30

/-- The inner `for tf_name, sig_data in result["signals"].items()` loop of
`monitor_loop`: broadcast the first entry whose `signal` is true, then
`break` (동일 종목은 첫 신호만). -/
def emit_first_signal : List (String × SigData) → Option (String × SigData)
  | [] => none
  | (tf, sd) :: rest => if sd.signal then some (tf, sd) else emit_first_signal rest

/-- The analyse-and-publish part of one `monitor_loop` symbol iteration
(after the cooldown gate): run the engine, skip on falsy price, broadcast
the first firing timeframe and stamp `last_signal_time[sym] = now`. -/
def analyze_and_publish (analyze : String → AnalysisResult)
    (last_signal_time : String → Option ℚ) (sym : String) (now : ℚ) :
    (String → Option ℚ) × List BroadcastEvent :=
  let result := analyze sym
  match result.current_price with
  | none => (last_signal_time, [])
  | some p =>
    if p = 0 then (last_signal_time, [])
    else
      match emit_first_signal result.signals with
      | none => (last_signal_time, [])
      | some (tf, _) =>
        (fun s => if s = sym then some now else last_signal_time s, [⟨sym, tf⟩])

/-- One full symbol iteration of `monitor_loop` (server.py lines 317-376):
the cooldown check (`elapsed < COOLDOWN_MINUTES → continue`, where
`elapsed` is in minutes) followed by `analyze_and_publish`.  The `Bool`
records whether the symbol was evaluated (i.e. the engine was invoked). -/
def process_symbol (analyze : String → AnalysisResult)
    (last_signal_time : String → Option ℚ) (sym : String) (now : ℚ) :
    (String → Option ℚ) × Bool × List BroadcastEvent :=
  match last_signal_time sym with
  | some t =>
    if now - t < COOLDOWN_MINUTES then (last_signal_time, false, [])
    else
      let r := analyze_and_publish analyze last_signal_time sym now
      (r.1, true, r.2)
  | none =>
    let r := analyze_and_publish analyze last_signal_time sym now
    (r.1, true, r.2)

/-- A sequence of `monitor_loop` symbol iterations (spanning one or more
scan cycles): each step is a symbol together with the wall-clock minute at
which its iteration runs.  Returns the final cooldown table, the evaluated
steps, and all broadcast events. -/
def run_scan_steps (analyze : String → ℚ → AnalysisResult)
    (last_signal_time : String → Option ℚ) :
    List (String × ℚ) →
    (String → Option ℚ) × List (String × ℚ) × List BroadcastEvent
  | [] => (last_signal_time, [], [])
  | (sym, now) :: rest =>
    let step := process_symbol (fun s => analyze s now) last_signal_time sym now
    let tail := run_scan_steps analyze step.1 rest
    (tail.1, (if step.2.1 then [(sym, now)] else []) ++ tail.2.1,
      step.2.2 ++ tail.2.2)

/-! ## Theorems -/

/-- Helper: `is_tradable` is true exactly when none of the four
disqualifying conditions holds. -/
theorem check_tradability_true_iff (min_score min_daily_volume
    min_dollar_volume score volume_daily price : ℚ) (market_open : Bool) :
    (check_tradability min_score min_daily_volume min_dollar_volume
      score volume_daily price market_open).1 = true ↔
    (¬ score < min_score ∧ ¬ volume_daily < min_daily_volume ∧
     ¬ price * volume_daily < min_dollar_volume ∧ market_open = true) := by
  unfold check_tradability
  cases market_open <;> split_ifs <;> simp_all

/-- Helper: membership of each reason tag. -/
theorem check_tradability_mem_iff (min_score min_daily_volume
    min_dollar_volume score volume_daily price : ℚ) (market_open : Bool)
    (r : TradabilityReason) :
    r ∈ (check_tradability min_score min_daily_volume min_dollar_volume
      score volume_daily price market_open).2 ↔
    ((r = TradabilityReason.low_score ∧ score < min_score) ∨
     (r = TradabilityReason.low_daily_volume ∧ volume_daily < min_daily_volume) ∨
     (r = TradabilityReason.low_dollar_volume ∧ price * volume_daily < min_dollar_volume) ∨
     (r = TradabilityReason.market_not_open ∧ market_open = false)) := by
  unfold check_tradability
  cases market_open <;> split_ifs <;> cases r <;> simp_all

/-- C5: `is_tradable` returned by `_check_tradability` is false iff at
least one of the four disqualifying conditions holds (score below
`min_score`, daily volume below `min_daily_volume`, `price × volume` below
`min_dollar_volume`, market not open), the reasons list carries one entry
per failing condition (all of them, not just the first), and in particular
daily volume 100,000 against a configured minimum of 500,000 yields the
volume-shortfall reason even with score 80 above a minimum of 70. -/
theorem tradability_reasons_complete (min_score min_daily_volume
    min_dollar_volume score volume_daily price : ℚ) (market_open : Bool) :
    ((check_tradability min_score min_daily_volume min_dollar_volume
        score volume_daily price market_open).1 = false ↔
      (score < min_score ∨ volume_daily < min_daily_volume ∨
       price * volume_daily < min_dollar_volume ∨ market_open = false)) ∧
    (TradabilityReason.low_score ∈ (check_tradability min_score
        min_daily_volume min_dollar_volume score volume_daily price
        market_open).2 ↔ score < min_score) ∧
    (TradabilityReason.low_daily_volume ∈ (check_tradability min_score
        min_daily_volume min_dollar_volume score volume_daily price
        market_open).2 ↔ volume_daily < min_daily_volume) ∧
    (TradabilityReason.low_dollar_volume ∈ (check_tradability min_score
        min_daily_volume min_dollar_volume score volume_daily price
        market_open).2 ↔ price * volume_daily < min_dollar_volume) ∧
    (TradabilityReason.market_not_open ∈ (check_tradability min_score
        min_daily_volume min_dollar_volume score volume_daily price
        market_open).2 ↔ market_open = false) ∧
    TradabilityReason.low_daily_volume ∈
      (check_tradability 70 500000 min_dollar_volume 80 100000 price
        market_open).2 := by
  refine ⟨?_, ?_, ?_, ?_, ?_, ?_⟩
  · constructor
    · intro hfalse
      by_contra hc
      push_neg at hc
      have hm : market_open = true := by
        cases market_open
        · exact absurd rfl hc.2.2.2
        · rfl
      have htrue := (check_tradability_true_iff min_score min_daily_volume
        min_dollar_volume score volume_daily price market_open).mpr
        ⟨not_lt.mpr hc.1, not_lt.mpr hc.2.1, not_lt.mpr hc.2.2.1, hm⟩
      rw [htrue] at hfalse
      exact Bool.noConfusion hfalse
    · intro hdisj
      cases hb : (check_tradability min_score min_daily_volume
        min_dollar_volume score volume_daily price market_open).1
      · rfl
      · exfalso
        obtain ⟨h1, h2, h3, h4⟩ := (check_tradability_true_iff min_score
          min_daily_volume min_dollar_volume score volume_daily price
          market_open).mp hb
        rcases hdisj with h | h | h | h
        · exact h1 h
        · exact h2 h
        · exact h3 h
        · rw [h4] at h; exact Bool.noConfusion h
  · rw [check_tradability_mem_iff]; simp
  · rw [check_tradability_mem_iff]; simp
  · rw [check_tradability_mem_iff]; simp
  · rw [check_tradability_mem_iff]; simp
  · rw [check_tradability_mem_iff]; norm_num

/-- C6: lowering `min_score` (all other inputs fixed) never turns a
tradable symbol non-tradable: if `_check_tradability` reports tradable
under `min_score` and `min_score' ≤ min_score`, it reports tradable under
`min_score'`. -/
theorem tradability_min_score_monotone (min_score min_score'
    min_daily_volume min_dollar_volume score volume_daily price : ℚ)
    (market_open : Bool) (hle : min_score' ≤ min_score)
    (h : (check_tradability min_score min_daily_volume min_dollar_volume
      score volume_daily price market_open).1 = true) :
    (check_tradability min_score' min_daily_volume min_dollar_volume
      score volume_daily price market_open).1 = true := by
  rw [check_tradability_true_iff] at h ⊢
  obtain ⟨h1, h2, h3, h4⟩ := h
  exact ⟨fun hc => h1 (lt_of_lt_of_le hc hle), h2, h3, h4⟩

/-- Witness for C6 at a concrete input. -/
theorem tradability_min_score_monotone_witness :
    (60 : ℚ) ≤ 70 ∧
    (check_tradability 60 500000 10000000 80 600000 20 true).1 = true :=
  ⟨by norm_num,
    tradability_min_score_monotone 70 60 500000 10000000 80 600000 20 true
      (by norm_num) (by norm_num [check_tradability])⟩

/-- C9: during the regular session (`use_aftermarket = False`), for any
non-empty quote `calculate_spread` forces `bid_price = 0` and
`ask_price = 0`, hence `spread_percent = 0` and the spread score is always
the maximum 5.0 — the spread step function is degenerate in regular
hours. -/
theorem spread_degenerate_in_rth (q : SpreadQuote) :
    (calculate_spread false (some q)).bid_price = 0 ∧
    (calculate_spread false (some q)).ask_price = 0 ∧
    (calculate_spread false (some q)).spread_percent = 0 ∧
    (calculate_spread false (some q)).score = 5 := by
  unfold calculate_spread calculate_spread_score
  norm_num

/-- C2: `get_market_session` always returns one of the four sessions; on
Saturday/Sunday (exchange-local weekday ≥ 5) it returns CLOSED regardless
of time-of-day; on weekdays the half-open local windows [04:00,09:30) →
PRE, [09:30,16:00) → RTH, [16:00,20:00) → AFTER and [20:00,04:00) → CLOSED
partition the day (contiguous, non-overlapping).  `sec_of_day` is the local
second-of-day. -/
theorem market_session_partition (weekday sec_of_day : ℕ)
    (hs : sec_of_day < 86400) :
    (get_market_session weekday sec_of_day = Session.PRE ∨
     get_market_session weekday sec_of_day = Session.RTH ∨
     get_market_session weekday sec_of_day = Session.AFTER ∨
     get_market_session weekday sec_of_day = Session.CLOSED) ∧
    (5 ≤ weekday → get_market_session weekday sec_of_day = Session.CLOSED) ∧
    (weekday < 5 →
      (get_market_session weekday sec_of_day = Session.PRE ↔
        4 * 3600 ≤ sec_of_day ∧ sec_of_day < 9 * 3600 + 30 * 60) ∧
      (get_market_session weekday sec_of_day = Session.RTH ↔
        9 * 3600 + 30 * 60 ≤ sec_of_day ∧ sec_of_day < 16 * 3600) ∧
      (get_market_session weekday sec_of_day = Session.AFTER ↔
        16 * 3600 ≤ sec_of_day ∧ sec_of_day < 20 * 3600) ∧
      (get_market_session weekday sec_of_day = Session.CLOSED ↔
        (20 * 3600 ≤ sec_of_day ∨ sec_of_day < 4 * 3600))) := by
  unfold get_market_session
  split_ifs with h1 h2 h3 h4 <;>
    refine ⟨by tauto, fun hw => ?_, fun hw => ⟨?_, ?_, ?_, ?_⟩⟩ <;>
    first
      | rfl
      | exact absurd hw h1
      | (constructor <;> intro hx <;>
          first
            | rfl
            | omega
            | simp at hx)

/-- Witness for C2: Wednesday 10:00 local time is RTH. -/
theorem market_session_partition_witness :
    (36000 : ℕ) < 86400 ∧ (2 : ℕ) < 5 ∧
    get_market_session 2 36000 = Session.RTH :=
  ⟨by norm_num, by norm_num,
    (((market_session_partition 2 36000 (by norm_num)).2.2
      (by norm_num)).2.1).mpr (by norm_num)⟩

/-- C3: `HistoricalDataCache` TTL semantics.  Immediately after
`set(s, v)` (any nonnegative TTL), `get(s)` returns `v`; once more than
`ttl` seconds have elapsed since the `set` with no intervening `set`
(`now - fetched_at > cache_ttl`, the staleness test of `get`), `get(s)`
returns absent and deletes the entry from the cache state — lazy eviction,
with no background sweep in the data structure. -/
theorem cache_set_get_ttl {α : Type} (c : CacheMap α) (symbol : String)
    (data : α) (cache_ttl t_set now : ℚ) :
    (0 ≤ cache_ttl →
      (cache_get cache_ttl (cache_set c symbol data t_set) symbol t_set).1 =
        some data) ∧
    (now - t_set > cache_ttl →
      (cache_get cache_ttl (cache_set c symbol data t_set) symbol now).1 =
        none ∧
      (cache_get cache_ttl (cache_set c symbol data t_set) symbol now).2
        symbol = none) := by
  have hsym : cache_set c symbol data t_set symbol = some (data, t_set) := by
    unfold cache_set
    simp
  constructor
  · intro httl
    have hfresh : ¬ t_set - t_set > cache_ttl := by
      rw [sub_self]
      exact not_lt.mpr httl
    have hnot : ¬ cache_ttl < 0 := not_lt.mpr httl
    unfold cache_get
    rw [hsym]
    simp [hfresh, hnot]
  · intro hstale
    unfold cache_get
    rw [hsym]
    simp [hstale]

/-- Witness for C3 at TTL 900 (the production default): a value set at
time 0 is readable at time 0 and evicted at time 901. -/
theorem cache_set_get_ttl_witness :
    ((0 : ℚ) ≤ 900 ∧
      (cache_get 900 (cache_set (fun _ => none) "AAPL" (42 : ℕ) 0)
        "AAPL" 0).1 = some 42) ∧
    ((901 : ℚ) - 0 > 900 ∧
      (cache_get 900 (cache_set (fun _ => none) "AAPL" (42 : ℕ) 0)
        "AAPL" 901).1 = none) :=
  ⟨⟨by norm_num,
    (cache_set_get_ttl (fun _ => none) "AAPL" (42 : ℕ) 900 0 0).1 (by norm_num)⟩,
   ⟨by norm_num,
    ((cache_set_get_ttl (fun _ => none) "AAPL" (42 : ℕ) 900 0 901).2
      (by norm_num)).1⟩⟩

/-- Helper: `analyze_and_publish` never touches another symbol's cooldown
entry. -/
theorem analyze_and_publish_other_symbol (analyze : String → AnalysisResult)
    (lst : String → Option ℚ) (s sym : String) (now : ℚ) (h : sym ≠ s) :
    (analyze_and_publish analyze lst s now).1 sym = lst sym := by
  unfold analyze_and_publish
  rcases hcp : (analyze s).current_price with _ | p
  · simp [hcp]
  · by_cases hp : p = 0
    · simp [hcp, hp]
    · rcases hes : emit_first_signal (analyze s).signals with _ | e
      · simp [hcp, hes, hp]
      · obtain ⟨tfe, sde⟩ := e
        simp [hcp, hes, hp, h]

/-- Helper: a step for a different symbol leaves `sym`'s cooldown entry
unchanged. -/
theorem process_symbol_other_symbol (analyze : String → AnalysisResult)
    (lst : String → Option ℚ) (s sym : String) (now : ℚ) (h : sym ≠ s) :
    (process_symbol analyze lst s now).1 sym = lst sym := by
  unfold process_symbol
  rcases hl : lst s with _ | t
  · simp only [hl]
    exact analyze_and_publish_other_symbol analyze lst s sym now h
  · simp only [hl]
    by_cases hc : now - t < COOLDOWN_MINUTES
    · simp [hc]
    · simp only [if_neg hc]
      exact analyze_and_publish_other_symbol analyze lst s sym now h

/-- C7: once `last_signal_time[sym] = t` (a signal fired for `sym` at
minute `t`), `monitor_loop` never re-evaluates `sym` — the Signal Engine is
not invoked for it, hence no further signal can be emitted — at any step
whose wall-clock minute `now` satisfies `now - t < COOLDOWN_MINUTES` (30
minutes); such steps are skipped in every scan cycle, and the cooldown
entry is left untouched by the whole run. -/
theorem cooldown_suppresses_reevaluation
    (analyze : String → ℚ → AnalysisResult) (lst : String → Option ℚ)
    (sym : String) (t : ℚ) (steps : List (String × ℚ))
    (h0 : lst sym = some t)
    (hwin : ∀ p ∈ steps, p.1 = sym → p.2 - t < COOLDOWN_MINUTES) :
    (∀ q ∈ (run_scan_steps analyze lst steps).2.1, q.1 ≠ sym) ∧
    (run_scan_steps analyze lst steps).1 sym = some t := by
  induction steps generalizing lst with
  | nil => exact ⟨by intro q hq; exact absurd hq (List.not_mem_nil q), h0⟩
  | cons p rest ih =>
    obtain ⟨s, now⟩ := p
    by_cases hs : s = sym
    · subst hs
      have hcool : now - t < COOLDOWN_MINUTES :=
        hwin (s, now) (List.mem_cons_self _ _) rfl
      have hstep : process_symbol (fun x => analyze x now) lst s now =
          (lst, false, []) := by
        unfold process_symbol
        simp only [h0]
        rw [if_pos hcool]
      have ihr := ih lst h0 (fun q hq => hwin q (List.mem_cons_of_mem _ hq))
      unfold run_scan_steps
      rw [hstep]
      exact ⟨by
        intro q hq
        simp only [List.nil_append] at hq
        exact ihr.1 q hq, ihr.2⟩
    · have hstate : (process_symbol (fun x => analyze x now) lst s now).1 sym
          = some t := by
        rw [process_symbol_other_symbol _ _ _ _ _ (fun he => hs he.symm), h0]
      have ihr := ih ((process_symbol (fun x => analyze x now) lst s now).1)
        hstate (fun q hq => hwin q (List.mem_cons_of_mem _ hq))
      unfold run_scan_steps
      refine ⟨?_, ihr.2⟩
      intro q hq
      rcases List.mem_append.mp hq with hq1 | hq2
      · rcases Decidable.em ((process_symbol (fun x => analyze x now)
          lst s now).2.1 = true) with he | he
        · rw [if_pos he] at hq1
          rcases List.mem_singleton.mp hq1 with rfl
          exact fun hc => hs hc
        · rw [if_neg he] at hq1
          exact absurd hq1 (List.not_mem_nil q)
      · exact ihr.1 q hq2

/-- Witness for C7: with `last_signal_time["AAPL"] = 0`, a step for AAPL at
minute 10 (inside the 30-minute cooldown) is skipped. -/
theorem cooldown_suppresses_reevaluation_witness :
    ((fun s => if s = "AAPL" then some (0 : ℚ) else none) "AAPL" = some 0 ∧
      (∀ p ∈ [("AAPL", (10 : ℚ))], p.1 = "AAPL" →
        p.2 - 0 < COOLDOWN_MINUTES)) ∧
    (∀ q ∈ (run_scan_steps (fun _ _ => ⟨some 1, []⟩)
        (fun s => if s = "AAPL" then some (0 : ℚ) else none)
        [("AAPL", 10)]).2.1, q.1 ≠ "AAPL") :=
  ⟨⟨by simp, by
      intro p hp _
      rcases List.mem_singleton.mp hp with rfl
      norm_num [COOLDOWN_MINUTES]⟩,
    (cooldown_suppresses_reevaluation (fun _ _ => ⟨some 1, []⟩)
      (fun s => if s = "AAPL" then some (0 : ℚ) else none) "AAPL" 0
      [("AAPL", 10)] (by simp)
      (by
        intro p hp _
        rcases List.mem_singleton.mp hp with rfl
        norm_num [COOLDOWN_MINUTES])).1⟩

/-- C10: within one symbol iteration of a scan cycle at most one signal
event is broadcast (`break` after the first firing timeframe), and once a
timeframe with `signal = true` is reached, the remaining timeframes are
not considered: the emitted event does not depend on them at all. -/
theorem one_broadcast_per_symbol_per_cycle
    (analyze : String → AnalysisResult) (lst : String → Option ℚ)
    (sym : String) (now : ℚ) (pre rest rest' : List (String × SigData))
    (tf : String) (sd : SigData) (hsig : sd.signal = true) :
    (process_symbol analyze lst sym now).2.2.length ≤ 1 ∧
    emit_first_signal (pre ++ (tf, sd) :: rest) =
      emit_first_signal (pre ++ (tf, sd) :: rest') := by
  constructor
  · have hpub : ∀ l, (analyze_and_publish analyze l sym now).2.length ≤ 1 := by
      intro l
      unfold analyze_and_publish
      rcases hcp : (analyze sym).current_price with _ | p
      · simp [hcp]
      · by_cases hp : p = 0
        · simp [hcp, hp]
        · rcases hes : emit_first_signal (analyze sym).signals with _ | e
          · simp [hcp, hes, hp]
          · obtain ⟨tfe, sde⟩ := e
            simp [hcp, hes, hp]
    unfold process_symbol
    rcases hl : lst sym with _ | t
    · simp only [hl]
      exact hpub lst
    · simp only [hl]
      by_cases hc : now - t < COOLDOWN_MINUTES
      · simp [hc]
      · simp only [if_neg hc]
        exact hpub lst
  · induction pre with
    | nil => simp [emit_first_signal, hsig]
    | cons q pres ih =>
      obtain ⟨tfq, sdq⟩ := q
      by_cases hq : sdq.signal = true
      · simp [emit_first_signal, hq]
      · simp only [List.cons_append, emit_first_signal,
          Bool.not_eq_true] at hq ⊢
        rw [hq]
        simpa using ih

/-- Witness for C10: a signals dict whose first timeframe fires. -/
theorem one_broadcast_per_symbol_per_cycle_witness :
    (⟨⟨2, 1/25, 1/25, 0, 0, 100, true⟩, 1, 1/2, true⟩ : SigData).signal
      = true ∧
    (process_symbol (fun _ => ⟨some (100 : ℚ),
        [("1min", ⟨⟨2, 1/25, 1/25, 0, 0, 100, true⟩, 1, 1/2, true⟩)]⟩)
      (fun _ => none) "AAPL" 0).2.2.length ≤ 1 :=
  ⟨rfl,
    (one_broadcast_per_symbol_per_cycle
      (fun _ => ⟨some (100 : ℚ),
        [("1min", ⟨⟨2, 1/25, 1/25, 0, 0, 100, true⟩, 1, 1/2, true⟩)]⟩)
      (fun _ => none) "AAPL" 0 [] [] []
      "1min" ⟨⟨2, 1/25, 1/25, 0, 0, 100, true⟩, 1, 1/2, true⟩ rfl).1⟩

/-- `x` is an integer between `lo` and `hi` (all the technical and
fundamental step scores are). -/
def IsIntBetween (x : ℚ) (lo hi : ℤ) : Prop :=
  ∃ k : ℤ, x = (k : ℚ) ∧ lo ≤ k ∧ k ≤ hi

theorem IsIntBetween.add {x y : ℚ} {lo hi lo' hi' : ℤ}
    (hx : IsIntBetween x lo hi) (hy : IsIntBetween y lo' hi') :
    IsIntBetween (x + y) (lo + lo') (hi + hi') := by
  obtain ⟨k, hk, hk1, hk2⟩ := hx
  obtain ⟨m, hm, hm1, hm2⟩ := hy
  exact ⟨k + m, by rw [hk, hm]; push_cast; ring, by omega, by omega⟩

theorem vwap_score_int (d : ℚ) : IsIntBetween (calculate_vwap_score d) 0 15 := by
  unfold calculate_vwap_score
  split_ifs
  · exact ⟨15, by norm_num⟩
  · exact ⟨10, by norm_num⟩
  · exact ⟨5, by norm_num⟩
  · exact ⟨0, by norm_num⟩

theorem volume_score_int (r1 r5 rd : ℚ) :
    IsIntBetween (calculate_volume_score r1 r5 rd) 0 25 := by
  unfold calculate_volume_score
  have h1 : IsIntBetween (if r1 > 10 then (10 : ℚ) else if r1 > 5 then 7
      else if r1 > 3 then 4 else 0) 0 10 := by
    split_ifs
    · exact ⟨10, by norm_num⟩
    · exact ⟨7, by norm_num⟩
    · exact ⟨4, by norm_num⟩
    · exact ⟨0, by norm_num⟩
  have h5 : IsIntBetween (if r5 > 8 then (10 : ℚ) else if r5 > 4 then 7
      else if r5 > 2 then 4 else 0) 0 10 := by
    split_ifs
    · exact ⟨10, by norm_num⟩
    · exact ⟨7, by norm_num⟩
    · exact ⟨4, by norm_num⟩
    · exact ⟨0, by norm_num⟩
  have hd : IsIntBetween (if rd > 2 then (5 : ℚ) else if rd > 3/2 then 3
      else 0) 0 5 := by
    split_ifs
    · exact ⟨5, by norm_num⟩
    · exact ⟨3, by norm_num⟩
    · exact ⟨0, by norm_num⟩
  exact (h1.add h5).add hd

theorem momentum_score_int (m5 m15 : ℚ) :
    IsIntBetween (calculate_momentum_score m5 m15) 0 15 := by
  unfold calculate_momentum_score
  have h5 : IsIntBetween (if m5 > 10 then (10 : ℚ) else if m5 > 5 then 7
      else if m5 > 3 then 4 else 0) 0 10 := by
    split_ifs
    · exact ⟨10, by norm_num⟩
    · exact ⟨7, by norm_num⟩
    · exact ⟨4, by norm_num⟩
    · exact ⟨0, by norm_num⟩
  have h15 : IsIntBetween (if m15 > 15 then (5 : ℚ) else if m15 > 10 then 3
      else 0) 0 5 := by
    split_ifs
    · exact ⟨5, by norm_num⟩
    · exact ⟨3, by norm_num⟩
    · exact ⟨0, by norm_num⟩
  exact h5.add h15

theorem spread_score_int (sp : ℚ) :
    IsIntBetween (calculate_spread_score sp) 0 5 := by
  unfold calculate_spread_score
  split_ifs
  · exact ⟨5, by norm_num⟩
  · exact ⟨3, by norm_num⟩
  · exact ⟨1, by norm_num⟩
  · exact ⟨0, by norm_num⟩

theorem fundamental_score_int (fs : Option ℕ) :
    IsIntBetween (calculate_fundamental_score fs) 0 15 := by
  cases fs with
  | none =>
    refine ⟨0, ?_, by norm_num, by norm_num⟩
    simp [calculate_fundamental_score]
  | some n =>
    simp only [calculate_fundamental_score]
    split_ifs
    · exact ⟨0, by norm_num⟩
    · exact ⟨10, by norm_num⟩
    · exact ⟨7, by norm_num⟩
    · exact ⟨4, by norm_num⟩
    · exact ⟨0, by norm_num⟩

theorem get_grade_weight_pos (g : Grade) : 0 < get_grade_weight g := by
  cases g <;> norm_num [get_grade_weight]

/-- The documented ranges of the upstream news fields: bullish/bearish are
percentages, confidence is in [0,1], sentiment in [-1,1], and the time
weight (an exponential) is positive. -/
def NewsItemInRange (it : NewsItem) : Prop :=
  0 ≤ it.n_bullish ∧ it.n_bullish ≤ 100 ∧
  0 ≤ it.n_bearish ∧ it.n_bearish ≤ 100 ∧
  0 ≤ it.n_confidence ∧ it.n_confidence ≤ 1 ∧
  -1 ≤ it.n_sent_score ∧ it.n_sent_score ≤ 1 ∧
  0 < it.n_time_weight

theorem news_item_score_bounds (it : NewsItem) (h : NewsItemInRange it) :
    0 ≤ news_item_score it ∧ news_item_score it ≤ 100 := by
  obtain ⟨h1, h2, h3, h4, h5, h6, h7, h8, _⟩ := h
  unfold news_item_score
  constructor <;> linarith

theorem news_item_weight_pos (it : NewsItem) (h : 0 < it.n_time_weight) :
    0 < news_item_weight it :=
  mul_pos h (get_grade_weight_pos it.n_grade)

theorem news_sums_bounds (l : List NewsItem)
    (h : ∀ it ∈ l, NewsItemInRange it) :
    0 ≤ (l.map fun it => news_item_score it * news_item_weight it).sum ∧
    (l.map fun it => news_item_score it * news_item_weight it).sum ≤
      100 * (l.map news_item_weight).sum ∧
    0 ≤ (l.map news_item_weight).sum ∧
    (l ≠ [] → 0 < (l.map news_item_weight).sum) := by
  induction l with
  | nil => simp
  | cons a tl ih =>
    have ha := h a (List.mem_cons_self a tl)
    have htl := ih (fun it hit => h it (List.mem_cons_of_mem a hit))
    have hw : 0 < news_item_weight a :=
      news_item_weight_pos a ha.2.2.2.2.2.2.2.2
    have hs := news_item_score_bounds a ha
    simp only [List.map_cons, List.sum_cons]
    have hsw : 0 ≤ news_item_score a * news_item_weight a :=
      mul_nonneg hs.1 (le_of_lt hw)
    have hsw' : news_item_score a * news_item_weight a ≤
        100 * news_item_weight a :=
      mul_le_mul_of_nonneg_right hs.2 (le_of_lt hw)
    refine ⟨by linarith [htl.1], by linarith [htl.2.1], by linarith [htl.2.2.1],
      fun _ => by linarith [htl.2.2.1]⟩

theorem calculate_news_score_bounds (l : List NewsItem)
    (h : ∀ it ∈ l, NewsItemInRange it) :
    0 ≤ calculate_news_score l ∧ calculate_news_score l ≤ 25 := by
  unfold calculate_news_score
  by_cases hl : l = []
  · rw [if_pos hl]
    norm_num
  · rw [if_neg hl]
    obtain ⟨h1, h2, h3, h4⟩ := news_sums_bounds l h
    have hW := h4 hl
    dsimp only
    rw [if_pos hW]
    have hfin0 : 0 ≤ (l.map fun it =>
        news_item_score it * news_item_weight it).sum /
        (l.map news_item_weight).sum := div_nonneg h1 h3
    have hfin100 : (l.map fun it =>
        news_item_score it * news_item_weight it).sum /
        (l.map news_item_weight).sum ≤ 100 := by
      rw [div_le_iff₀ hW]
      linarith
    constructor
    · exact round2_nonneg (by linarith)
    · have h25 := round2_le_intCast (q := ((l.map fun it =>
        news_item_score it * news_item_weight it).sum /
        (l.map news_item_weight).sum) * (1/4)) (k := 25) (by push_cast; linarith)
      exact_mod_cast h25

theorem round2_news_score (l : List NewsItem) :
    round2 (calculate_news_score l) = calculate_news_score l := by
  unfold calculate_news_score
  by_cases hl : l = []
  · rw [if_pos hl]
    have h := round2_intCast 0
    simpa using h
  · rw [if_neg hl]
    exact round2_round2 _

/-- C1: for every input (news fields within their documented ranges), the
scores returned by `ScoreEngine.calculate_score` satisfy
`0 ≤ technical ≤ 60`, `0 ≤ news ≤ 25`, `0 ≤ fundamental ≤ 15`, and the
returned total equals exactly `technical + news + fundamental` (the
two-decimal rounding of the returned fields preserves the exact sum since
the technical and fundamental scores are integers). -/
theorem composite_score_bounds (deviation_percent ratio_1m ratio_5m
    ratio_daily momentum_5m momentum_15m spread_percent : ℚ)
    (news_list : List NewsItem) (float_shares : Option ℕ)
    (hnews : ∀ it ∈ news_list, NewsItemInRange it) :
    0 ≤ (calculate_score deviation_percent ratio_1m ratio_5m ratio_daily
      momentum_5m momentum_15m spread_percent news_list
      float_shares).technical ∧
    (calculate_score deviation_percent ratio_1m ratio_5m ratio_daily
      momentum_5m momentum_15m spread_percent news_list
      float_shares).technical ≤ 60 ∧
    0 ≤ (calculate_score deviation_percent ratio_1m ratio_5m ratio_daily
      momentum_5m momentum_15m spread_percent news_list float_shares).news ∧
    (calculate_score deviation_percent ratio_1m ratio_5m ratio_daily
      momentum_5m momentum_15m spread_percent news_list
      float_shares).news ≤ 25 ∧
    0 ≤ (calculate_score deviation_percent ratio_1m ratio_5m ratio_daily
      momentum_5m momentum_15m spread_percent news_list
      float_shares).fundamental ∧
    (calculate_score deviation_percent ratio_1m ratio_5m ratio_daily
      momentum_5m momentum_15m spread_percent news_list
      float_shares).fundamental ≤ 15 ∧
    (calculate_score deviation_percent ratio_1m ratio_5m ratio_daily
      momentum_5m momentum_15m spread_percent news_list
      float_shares).total_score =
      (calculate_score deviation_percent ratio_1m ratio_5m ratio_daily
        momentum_5m momentum_15m spread_percent news_list
        float_shares).technical +
      (calculate_score deviation_percent ratio_1m ratio_5m ratio_daily
        momentum_5m momentum_15m spread_percent news_list
        float_shares).news +
      (calculate_score deviation_percent ratio_1m ratio_5m ratio_daily
        momentum_5m momentum_15m spread_percent news_list
        float_shares).fundamental := by
  obtain ⟨kt, hkt, hkt0, hkt60⟩ :=
    (((vwap_score_int deviation_percent).add
      (volume_score_int ratio_1m ratio_5m ratio_daily)).add
      (momentum_score_int momentum_5m momentum_15m)).add
      (spread_score_int spread_percent)
  obtain ⟨kf, hkf, hkf0, hkf15⟩ := fundamental_score_int float_shares
  obtain ⟨hn0, hn25⟩ := calculate_news_score_bounds news_list hnews
  unfold calculate_score
  dsimp only
  rw [hkt, hkf, round2_intCast kt, round2_intCast kf, round2_news_score]
  have htot : (kt : ℚ) + calculate_news_score news_list + (kf : ℚ) =
      ((kt + kf : ℤ) : ℚ) + calculate_news_score news_list := by
    push_cast; ring
  rw [htot, round2_int_add, round2_news_score]
  refine ⟨by exact_mod_cast hkt0, by exact_mod_cast hkt60, hn0, hn25,
    by exact_mod_cast hkf0, by exact_mod_cast hkf15, by push_cast; ring⟩

/-- Witness for C1 at a concrete input (one grade-A news item in range). -/
theorem composite_score_bounds_witness :
    (∀ it ∈ [NewsItem.mk 80 20 (1/2) (1/2) Grade.A 1],
      NewsItemInRange it) ∧
    0 ≤ (calculate_score 4 6 5 3 7 12 (1/5)
      [NewsItem.mk 80 20 (1/2) (1/2) Grade.A 1] (some 5000000)).technical ∧
    (calculate_score 4 6 5 3 7 12 (1/5)
      [NewsItem.mk 80 20 (1/2) (1/2) Grade.A 1] (some 5000000)).technical
      ≤ 60 ∧
    0 ≤ (calculate_score 4 6 5 3 7 12 (1/5)
      [NewsItem.mk 80 20 (1/2) (1/2) Grade.A 1] (some 5000000)).news ∧
    (calculate_score 4 6 5 3 7 12 (1/5)
      [NewsItem.mk 80 20 (1/2) (1/2) Grade.A 1] (some 5000000)).news ≤ 25 ∧
    0 ≤ (calculate_score 4 6 5 3 7 12 (1/5)
      [NewsItem.mk 80 20 (1/2) (1/2) Grade.A 1] (some 5000000)).fundamental ∧
    (calculate_score 4 6 5 3 7 12 (1/5)
      [NewsItem.mk 80 20 (1/2) (1/2) Grade.A 1] (some 5000000)).fundamental
      ≤ 15 ∧
    (calculate_score 4 6 5 3 7 12 (1/5)
      [NewsItem.mk 80 20 (1/2) (1/2) Grade.A 1] (some 5000000)).total_score =
      (calculate_score 4 6 5 3 7 12 (1/5)
        [NewsItem.mk 80 20 (1/2) (1/2) Grade.A 1] (some 5000000)).technical +
      (calculate_score 4 6 5 3 7 12 (1/5)
        [NewsItem.mk 80 20 (1/2) (1/2) Grade.A 1] (some 5000000)).news +
      (calculate_score 4 6 5 3 7 12 (1/5)
        [NewsItem.mk 80 20 (1/2) (1/2) Grade.A 1] (some 5000000)).fundamental :=
  ⟨by
    intro it hit
    rcases List.mem_singleton.mp hit with rfl
    norm_num [NewsItemInRange],
   composite_score_bounds 4 6 5 3 7 12 (1/5)
    [NewsItem.mk 80 20 (1/2) (1/2) Grade.A 1] (some 5000000)
    (by
      intro it hit
      rcases List.mem_singleton.mp hit with rfl
      norm_num [NewsItemInRange])⟩

/-- A 26-bar 15-minute series engineered so the features come out as
`rvol = 2.0` and `base_range = 0.04` exactly (the last volume solves
`v = 2 * (mean of last 13 volumes + 1e-9)`). -/
def demo_bars : List Bar :=
  [⟨100, 100, 100, 11⟩, ⟨100, 100, 100, 11⟩, ⟨100, 100, 100, 11⟩,
   ⟨100, 100, 100, 11⟩, ⟨100, 100, 100, 11⟩, ⟨100, 100, 100, 11⟩,
   ⟨100, 100, 100, 11⟩, ⟨100, 100, 100, 11⟩, ⟨100, 100, 100, 11⟩,
   ⟨100, 100, 100, 11⟩, ⟨100, 100, 100, 11⟩, ⟨100, 100, 100, 11⟩,
   ⟨100, 100, 100, 11⟩, ⟨100, 100, 100, 11⟩, ⟨100, 100, 100, 11⟩,
   ⟨100, 100, 100, 11⟩, ⟨100, 100, 100, 11⟩, ⟨100, 100, 100, 11⟩,
   ⟨100, 100, 100, 11⟩, ⟨100, 100, 100, 11⟩, ⟨100, 100, 100, 11⟩,
   ⟨100, 100, 100, 11⟩, ⟨100, 100, 100, 11⟩, ⟨102, 98, 100, 11⟩,
   ⟨102, 98, 100, 11⟩, ⟨102, 98, 100, 264000000026/11000000000⟩]

theorem demo_bars_features_eval :
    calculate_features demo_bars ("15min") (some 100) =
      some ⟨2, 1/25, 1/25, 0, 0, 100, true⟩ := by
  have hbb : base_bars_of ("15min") = 2 := rfl
  have hbw : base_window_of ("15min") 26 = 13 := rfl
  simp only [calculate_features, demo_bars, List.length_cons, List.length_nil,
    List.map_cons, List.map_nil]
  norm_num [hbb, hbw, simple_rvol_last, rolling_mean_last, last_n,
    intraday_spread_est, list_max, list_min]

/-- A 26-bar 15-minute series with flat volume (rvol just below 1, failing
the `rvol < 1.5` pre-filter). -/
def lowvol_bars : List Bar :=
  [⟨100, 100, 100, 13⟩, ⟨100, 100, 100, 13⟩, ⟨100, 100, 100, 13⟩,
   ⟨100, 100, 100, 13⟩, ⟨100, 100, 100, 13⟩, ⟨100, 100, 100, 13⟩,
   ⟨100, 100, 100, 13⟩, ⟨100, 100, 100, 13⟩, ⟨100, 100, 100, 13⟩,
   ⟨100, 100, 100, 13⟩, ⟨100, 100, 100, 13⟩, ⟨100, 100, 100, 13⟩,
   ⟨100, 100, 100, 13⟩, ⟨100, 100, 100, 13⟩, ⟨100, 100, 100, 13⟩,
   ⟨100, 100, 100, 13⟩, ⟨100, 100, 100, 13⟩, ⟨100, 100, 100, 13⟩,
   ⟨100, 100, 100, 13⟩, ⟨100, 100, 100, 13⟩, ⟨100, 100, 100, 13⟩,
   ⟨100, 100, 100, 13⟩, ⟨100, 100, 100, 13⟩, ⟨100, 100, 100, 13⟩,
   ⟨100, 100, 100, 13⟩, ⟨100, 100, 100, 13⟩]

theorem lowvol_bars_features_eval :
    calculate_features lowvol_bars ("15min") (some 100) =
      some ⟨13000000000/13000000001, 0, 0, 0, 0, 100, true⟩ := by
  have hbb : base_bars_of ("15min") = 2 := rfl
  have hbw : base_window_of ("15min") 26 = 13 := rfl
  simp only [calculate_features, lowvol_bars, List.length_cons,
    List.length_nil, List.map_cons, List.map_nil]
  norm_num [hbb, hbw, simple_rvol_last, rolling_mean_last, last_n,
    intraday_spread_est, list_max, list_min]

/-- A 20-bar 15-minute series whose third-to-last bar (inside the code's
3-bar window, outside the spec's 2-bar window) carries a spike high. -/
def spike_bars : List Bar :=
  [⟨100, 100, 100, 1⟩, ⟨100, 100, 100, 1⟩, ⟨100, 100, 100, 1⟩,
   ⟨100, 100, 100, 1⟩, ⟨100, 100, 100, 1⟩, ⟨100, 100, 100, 1⟩,
   ⟨100, 100, 100, 1⟩, ⟨100, 100, 100, 1⟩, ⟨100, 100, 100, 1⟩,
   ⟨100, 100, 100, 1⟩, ⟨100, 100, 100, 1⟩, ⟨100, 100, 100, 1⟩,
   ⟨100, 100, 100, 1⟩, ⟨100, 100, 100, 1⟩, ⟨100, 100, 100, 1⟩,
   ⟨100, 100, 100, 1⟩, ⟨100, 100, 100, 1⟩, ⟨200, 100, 100, 1⟩,
   ⟨100, 100, 100, 1⟩, ⟨100, 100, 100, 1⟩]

theorem spike_bars_features_eval :
    calculate_features spike_bars ("15min") none =
      some ⟨1000000000/1000000001, 2/3, 1, 0, 0, 100, true⟩ := by
  have hbb : base_bars_of ("15min") = 2 := rfl
  have hbw : base_window_of ("15min") 20 = 10 := rfl
  simp only [calculate_features, spike_bars, List.length_cons,
    List.length_nil, List.map_cons, List.map_nil]
  norm_num [hbb, hbw, simple_rvol_last, rolling_mean_last, last_n,
    intraday_spread_est, list_max, list_min]

/-- A 20-bar series with `high = 1`, `low = -1` everywhere: the base-range
midpoint is zero. -/
def zero_mid_bars : List Bar :=
  [⟨1, -1, 1, 1⟩, ⟨1, -1, 1, 1⟩, ⟨1, -1, 1, 1⟩, ⟨1, -1, 1, 1⟩,
   ⟨1, -1, 1, 1⟩, ⟨1, -1, 1, 1⟩, ⟨1, -1, 1, 1⟩, ⟨1, -1, 1, 1⟩,
   ⟨1, -1, 1, 1⟩, ⟨1, -1, 1, 1⟩, ⟨1, -1, 1, 1⟩, ⟨1, -1, 1, 1⟩,
   ⟨1, -1, 1, 1⟩, ⟨1, -1, 1, 1⟩, ⟨1, -1, 1, 1⟩, ⟨1, -1, 1, 1⟩,
   ⟨1, -1, 1, 1⟩, ⟨1, -1, 1, 1⟩, ⟨1, -1, 1, 1⟩, ⟨1, -1, 1, 1⟩]

theorem zero_mid_bars_features_eval :
    calculate_features zero_mid_bars ("15min") none =
      some ⟨1000000000/1000000001, 2, 2, 0, 0, 1, true⟩ := by
  have hbb : base_bars_of ("15min") = 2 := rfl
  have hbw : base_window_of ("15min") 20 = 10 := rfl
  simp only [calculate_features, zero_mid_bars, List.length_cons,
    List.length_nil, List.map_cons, List.map_nil]
  norm_num [hbb, hbw, simple_rvol_last, rolling_mean_last, last_n,
    intraday_spread_est, list_max, list_min]

/-- C4: the Signal Engine never invokes the classifier on a feature vector
with `rvol < 1.5` or `base_range > 0.08` — in both the RTH per-timeframe
body and the pre/after body such symbols are skipped with no `signals`
entry and with the classifier not run; conversely, on the 26-bar 15-minute
series `demo_bars`, whose features come out as `rvol = 2.0` and
`base_range = 0.04`, the pre-filter passes and the classifier is invoked
(in both bodies, whatever the model and threshold). -/
theorem classifier_pre_filter_gate :
    (∀ (model : ℚ × ℚ × ℚ × ℚ → ℚ) (threshold : ℚ) (df : List Bar)
      (tf : String) (cp : ℚ) (feats : Feats),
      calculate_features df tf (some cp) = some feats →
      (feats.rvol < 3/2 ∨ feats.base_range > 8/100) →
      analyze_timeframe_rth model threshold df tf cp = (none, false)) ∧
    (∀ (model : ℚ × ℚ × ℚ × ℚ → ℚ) (threshold : ℚ) (data : List Bar)
      (cp : ℚ) (feats : Feats),
      calculate_features data ("15min") (some cp) = some feats →
      (feats.rvol < 3/2 ∨ feats.base_range > 8/100) →
      analyze_pre_after model threshold data cp = (none, false)) ∧
    calculate_features demo_bars ("15min") (some 100) =
      some ⟨2, 1/25, 1/25, 0, 0, 100, true⟩ ∧
    (∀ (model : ℚ × ℚ × ℚ × ℚ → ℚ) (threshold : ℚ),
      (analyze_timeframe_rth model threshold demo_bars ("15min") 100).2 = true ∧
      (analyze_pre_after model threshold demo_bars 100).2 = true) := by
  refine ⟨?_, ?_, demo_bars_features_eval, ?_⟩
  · intro model threshold df tf cp feats hf hfail
    unfold analyze_timeframe_rth
    by_cases hv : feats.valid
    · simp [hf, hv, hfail]
    · simp [hf, hv]
  · intro model threshold data cp feats hf hfail
    unfold analyze_pre_after
    by_cases hcp : cp ≤ 0
    · simp [hcp]
    · by_cases hlen : data.length < 20
      · simp [hcp, hlen]
      · by_cases hv : feats.valid
        · by_cases h1 : feats.rvol < 3/2
          · simp [hcp, hlen, hf, hv, h1]
          · have h2 : feats.base_range > 8/100 := hfail.resolve_left h1
            simp [hcp, hlen, hf, hv, h1, h2]
        · simp [hcp, hlen, hf, hv]
  · intro model threshold
    have hlen : demo_bars.length = 26 := rfl
    constructor
    · unfold analyze_timeframe_rth
      rw [demo_bars_features_eval]
      norm_num
    · unfold analyze_pre_after
      rw [if_neg (by norm_num), if_neg (by rw [hlen]; norm_num),
        demo_bars_features_eval]
      norm_num

/-- Witness for C4: on `lowvol_bars` (rvol ≈ 1 < 1.5) the RTH body skips
and does not run the classifier. -/
theorem classifier_pre_filter_gate_witness :
    calculate_features lowvol_bars ("15min") (some 100) =
      some ⟨13000000000/13000000001, 0, 0, 0, 0, 100, true⟩ ∧
    ((13000000000/13000000001 : ℚ) < 3/2 ∨ (0 : ℚ) > 8/100) ∧
    analyze_timeframe_rth (fun _ => 1) (1/2) lowvol_bars ("15min") 100 =
      (none, false) ∧
    (analyze_timeframe_rth (fun _ => 1) (1/2) demo_bars ("15min") 100).2 =
      true :=
  ⟨lowvol_bars_features_eval, by norm_num,
    classifier_pre_filter_gate.1 (fun _ => 1) (1/2) lowvol_bars ("15min") 100
      ⟨13000000000/13000000001, 0, 0, 0, 0, 100, true⟩
      lowvol_bars_features_eval (by norm_num),
    (classifier_pre_filter_gate.2.2.2 (fun _ => 1) (1/2)).1⟩

theorem list_max_nonneg (xs : List ℚ) (h : ∀ x ∈ xs, 0 ≤ x) :
    0 ≤ list_max xs := by
  induction xs with
  | nil => simp [list_max]
  | cons a tl ih =>
    cases tl with
    | nil => simpa [list_max] using h a (by simp)
    | cons b tl2 =>
      have h2 := ih (fun x hx => h x (List.mem_cons_of_mem a hx))
      calc (0 : ℚ) ≤ list_max (b :: tl2) := h2
      _ ≤ max a (list_max (b :: tl2)) := le_max_right _ _
      _ = list_max (a :: b :: tl2) := rfl

theorem list_min_nonneg (xs : List ℚ) (h : ∀ x ∈ xs, 0 ≤ x) :
    0 ≤ list_min xs := by
  induction xs with
  | nil => simp [list_min]
  | cons a tl ih =>
    cases tl with
    | nil => simpa [list_min] using h a (by simp)
    | cons b tl2 =>
      have h2 := ih (fun x hx => h x (List.mem_cons_of_mem a hx))
      have ha := h a (by simp)
      calc (0 : ℚ) ≤ min a (list_min (b :: tl2)) := le_min ha h2
      _ = list_min (a :: b :: tl2) := rfl

theorem mem_of_mem_last_n {α : Type} {x : α} {xs : List α} {k : ℕ}
    (h : x ∈ last_n xs k) : x ∈ xs :=
  List.drop_subset _ _ h

theorem drop_eq_last_n {α : Type} (xs : List α) (b : ℕ) :
    xs.drop (xs.length - 1 - b) = last_n xs (b + 1) := by
  unfold last_n
  congr 1
  omega

/-- The base range computed by `SignalEngine.calculate_features`, as a
closed form over the last `base_bars + 1` bars: the inner `mid ≠ 0` guard
always holds (when `hi + lo = 0` the code substitutes `mid = 1`). -/
theorem features_base_range_eq (df : List Bar) (tf : String)
    (cp : Option ℚ) (feats : Feats)
    (hf : calculate_features df tf cp = some feats) :
    feats.base_range =
      if list_max ((last_n df (base_bars_of tf + 1)).map Bar.high) +
          list_min ((last_n df (base_bars_of tf + 1)).map Bar.low) ≠ 0
      then (list_max ((last_n df (base_bars_of tf + 1)).map Bar.high) -
          list_min ((last_n df (base_bars_of tf + 1)).map Bar.low)) /
        ((list_max ((last_n df (base_bars_of tf + 1)).map Bar.high) +
          list_min ((last_n df (base_bars_of tf + 1)).map Bar.low)) / 2)
      else list_max ((last_n df (base_bars_of tf + 1)).map Bar.high) -
        list_min ((last_n df (base_bars_of tf + 1)).map Bar.low) := by
  unfold calculate_features at hf
  by_cases hlen : df.length < 20
  · rw [if_pos hlen] at hf
    exact absurd hf (by simp)
  · rw [if_neg hlen] at hf
    have hfe := Option.some.inj hf
    subst hfe
    dsimp only
    rw [drop_eq_last_n]
    by_cases hm : list_max ((last_n df (base_bars_of tf + 1)).map Bar.high) +
        list_min ((last_n df (base_bars_of tf + 1)).map Bar.low) ≠ 0
    · rw [if_pos hm, if_pos hm, if_pos (div_ne_zero hm two_ne_zero)]
    · rw [if_neg hm, if_neg hm, if_pos (one_ne_zero (α := ℚ)), div_one]

/-- The base range computed by `analyze_timeframe` (feature_multi_tf.py),
as a closed form over the last `base_bars` bars. -/
theorem analyze_timeframe_base_range_eq (df : List Bar) (tf : String)
    (cp : Option ℚ) (hlen : ¬ df.length < 10) :
    (analyze_timeframe df tf cp).base_range =
      if list_max ((last_n df (base_bars_of tf)).map Bar.high) +
          list_min ((last_n df (base_bars_of tf)).map Bar.low) ≠ 0
      then (list_max ((last_n df (base_bars_of tf)).map Bar.high) -
          list_min ((last_n df (base_bars_of tf)).map Bar.low)) /
        ((list_max ((last_n df (base_bars_of tf)).map Bar.high) +
          list_min ((last_n df (base_bars_of tf)).map Bar.low)) / 2)
      else list_max ((last_n df (base_bars_of tf)).map Bar.high) -
        list_min ((last_n df (base_bars_of tf)).map Bar.low) := by
  unfold analyze_timeframe
  rw [if_neg hlen]
  dsimp only
  by_cases hm : list_max ((last_n df (base_bars_of tf)).map Bar.high) +
      list_min ((last_n df (base_bars_of tf)).map Bar.low) ≠ 0
  · rw [if_pos hm, if_pos hm, if_pos (div_ne_zero hm two_ne_zero)]
  · rw [if_neg hm, if_neg hm, if_pos (one_ne_zero (α := ℚ)), div_one]

/-- `base_range_spec` as a closed form. -/
theorem base_range_spec_eq (df : List Bar) (k : ℕ) :
    base_range_spec df k =
      if list_max ((last_n df k).map Bar.high) +
          list_min ((last_n df k).map Bar.low) = 0
      then 0
      else (list_max ((last_n df k).map Bar.high) -
          list_min ((last_n df k).map Bar.low)) /
        ((list_max ((last_n df k).map Bar.high) +
          list_min ((last_n df k).map Bar.low)) / 2) := by
  unfold base_range_spec
  dsimp only
  have hiff : (list_max ((last_n df k).map Bar.high) +
      list_min ((last_n df k).map Bar.low)) / 2 = 0 ↔
      list_max ((last_n df k).map Bar.high) +
      list_min ((last_n df k).map Bar.low) = 0 := by
    rw [div_eq_zero_iff]
    norm_num
  by_cases hm : list_max ((last_n df k).map Bar.high) +
      list_min ((last_n df k).map Bar.low) = 0
  · rw [if_pos (hiff.mpr hm), if_pos hm]
  · rw [if_neg (fun hc => hm (hiff.mp hc)), if_neg hm]

/-- C8 (counterexample): the claim "base_range is `(high - low)/midpoint`
over the most recent N bars (N = 2 for 15-minute bars) and is zero when the
midpoint is zero" is false on `SignalEngine.calculate_features`.  On
`spike_bars` the code's base range is `2/3` while the most-recent-2-bars
value is `0`; on `zero_mid_bars` the window's midpoint is zero yet the
code's base range is `2`, not `0`. -/
theorem base_range_window_counterexample :
    (calculate_features spike_bars ("15min") none).map Feats.base_range =
      some (2/3) ∧
    base_range_spec spike_bars (base_bars_of ("15min")) = 0 ∧
    ((2 : ℚ)/3 ≠ 0) ∧
    (calculate_features zero_mid_bars ("15min") none).map Feats.base_range =
      some 2 ∧
    (list_max ((last_n zero_mid_bars (base_bars_of ("15min") + 1)).map
        Bar.high) +
      list_min ((last_n zero_mid_bars (base_bars_of ("15min") + 1)).map
        Bar.low)) / 2 = 0 ∧
    ((2 : ℚ) ≠ 0) := by
  have hbb : base_bars_of ("15min") = 2 := rfl
  refine ⟨?_, ?_, by norm_num, ?_, ?_, by norm_num⟩
  · rw [spike_bars_features_eval]
    rfl
  · rw [base_range_spec_eq, hbb]
    norm_num [last_n, spike_bars, list_max, list_min]
  · rw [zero_mid_bars_features_eval]
    rfl
  · rw [hbb]
    norm_num [last_n, zero_mid_bars, list_max, list_min]

/-- C8 (amended): in the Feature Engine the base range is `(high - low) /
midpoint`, but the window differs between the two implementations: in
`SignalEngine.calculate_features` it is the most recent `N + 1` bars
(31/7/3 bars per timeframe, spanning more than 30 minutes), while
`analyze_timeframe` (feature_multi_tf.py) uses exactly the most recent `N`
bars (30/6/2, the fixed 30-minute window); and when the midpoint is zero
the code divides by 1 instead, so the base range equals `high - low` —
which is zero (agreeing with the spec's words) whenever all highs and lows
are nonnegative. -/
theorem base_range_windows_amended (df : List Bar) (tf : String)
    (cp : Option ℚ) (feats : Feats)
    (hf : calculate_features df tf cp = some feats) :
    (list_max ((last_n df (base_bars_of tf + 1)).map Bar.high) +
        list_min ((last_n df (base_bars_of tf + 1)).map Bar.low) ≠ 0 →
      feats.base_range = base_range_spec df (base_bars_of tf + 1)) ∧
    (list_max ((last_n df (base_bars_of tf + 1)).map Bar.high) +
        list_min ((last_n df (base_bars_of tf + 1)).map Bar.low) = 0 →
      feats.base_range =
        list_max ((last_n df (base_bars_of tf + 1)).map Bar.high) -
        list_min ((last_n df (base_bars_of tf + 1)).map Bar.low)) ∧
    ((∀ b ∈ df, 0 ≤ b.high ∧ 0 ≤ b.low) →
      feats.base_range = base_range_spec df (base_bars_of tf + 1)) ∧
    (∀ (df2 : List Bar) (cp2 : Option ℚ), ¬ df2.length < 10 →
      list_max ((last_n df2 (base_bars_of tf)).map Bar.high) +
        list_min ((last_n df2 (base_bars_of tf)).map Bar.low) ≠ 0 →
      (analyze_timeframe df2 tf cp2).base_range =
        base_range_spec df2 (base_bars_of tf)) := by
  have hcode := features_base_range_eq df tf cp feats hf
  have hmax : ∀ (h : ∀ b ∈ df, 0 ≤ b.high ∧ 0 ≤ b.low) (k : ℕ),
      0 ≤ list_max ((last_n df k).map Bar.high) := by
    intro h k
    refine list_max_nonneg _ ?_
    intro x hx
    obtain ⟨b, hb, rfl⟩ := List.mem_map.mp hx
    exact (h b (mem_of_mem_last_n hb)).1
  have hmin : ∀ (h : ∀ b ∈ df, 0 ≤ b.high ∧ 0 ≤ b.low) (k : ℕ),
      0 ≤ list_min ((last_n df k).map Bar.low) := by
    intro h k
    refine list_min_nonneg _ ?_
    intro x hx
    obtain ⟨b, hb, rfl⟩ := List.mem_map.mp hx
    exact (h b (mem_of_mem_last_n hb)).2
  refine ⟨?_, ?_, ?_, ?_⟩
  · intro hm
    rw [hcode, if_pos hm, base_range_spec_eq, if_neg hm]
  · intro hm
    rw [hcode, if_neg (fun hc => hc hm)]
  · intro hnn
    by_cases hm : list_max ((last_n df (base_bars_of tf + 1)).map Bar.high) +
        list_min ((last_n df (base_bars_of tf + 1)).map Bar.low) = 0
    · have h1 := hmax hnn (base_bars_of tf + 1)
      have h2 := hmin hnn (base_bars_of tf + 1)
      rw [hcode, if_neg (fun hc => hc hm), base_range_spec_eq, if_pos hm]
      linarith
    · rw [hcode, if_pos hm, base_range_spec_eq, if_neg hm]
  · intro df2 cp2 hlen2 hm2
    rw [analyze_timeframe_base_range_eq df2 tf cp2 hlen2, if_pos hm2,
      base_range_spec_eq, if_neg hm2]

/-- Witness for the amended C8 on `spike_bars`: the code's base range
equals the spec formula over 3 (not 2) bars, and `analyze_timeframe` on the
same series equals the spec formula over 2 bars. -/
theorem base_range_windows_amended_witness :
    calculate_features spike_bars ("15min") none =
      some ⟨1000000000/1000000001, 2/3, 1, 0, 0, 100, true⟩ ∧
    list_max ((last_n spike_bars (base_bars_of ("15min") + 1)).map Bar.high) +
      list_min ((last_n spike_bars (base_bars_of ("15min") + 1)).map Bar.low)
      ≠ 0 ∧
    (Feats.base_range ⟨1000000000/1000000001, 2/3, 1, 0, 0, 100, true⟩ =
      base_range_spec spike_bars (base_bars_of ("15min") + 1)) ∧
    (¬ spike_bars.length < 10) ∧
    ((analyze_timeframe spike_bars ("15min") none).base_range =
      base_range_spec spike_bars (base_bars_of ("15min"))) := by
  have hbb : base_bars_of ("15min") = 2 := rfl
  have hm : list_max ((last_n spike_bars (base_bars_of ("15min") + 1)).map
      Bar.high) +
      list_min ((last_n spike_bars (base_bars_of ("15min") + 1)).map Bar.low)
      ≠ 0 := by
    rw [hbb]
    norm_num [last_n, spike_bars, list_max, list_min]
  have hm2 : list_max ((last_n spike_bars (base_bars_of ("15min"))).map
      Bar.high) +
      list_min ((last_n spike_bars (base_bars_of ("15min"))).map Bar.low)
      ≠ 0 := by
    rw [hbb]
    norm_num [last_n, spike_bars, list_max, list_min]
  have hlen : ¬ spike_bars.length < 10 := by norm_num [spike_bars]
  refine ⟨spike_bars_features_eval, hm, ?_, hlen, ?_⟩
  · exact (base_range_windows_amended spike_bars ("15min") none
      ⟨1000000000/1000000001, 2/3, 1, 0, 0, 100, true⟩
      spike_bars_features_eval).1 hm
  · exact (base_range_windows_amended spike_bars ("15min") none
      ⟨1000000000/1000000001, 2/3, 1, 0, 0, 100, true⟩
      spike_bars_features_eval).2.2.2 spike_bars none hlen hm2
